import Mathlib

/-!
Shallow embedding of the booking admission logic of the Vehicle-Booking
repository (backend routes `bookings.ts` and `admin.ts`).

Timestamps (JavaScript `Date` values, compared with `<`, `<=`, `>`, `>=`)
are modelled as `Int`; record ids and e-mails (UUID / text strings) as
`String`.  The Prisma queries over the `booking` table are modelled as
predicates over an explicit list of persisted bookings, and the implicit
wall-clock read (`new Date()`) as an explicitly passed `now` parameter.
-/

namespace VehicleBooking

/-- A vehicle record (Prisma model `Vehicle`): id, display name, category,
license plate, color and the `isActive` flag. -/
structure Vehicle where
  id : String
  name : String
  vehicleType : String
  licensePlate : String
  color : String
  isActive : Bool
deriving DecidableEq

/-- A persisted booking record (Prisma model `Booking`), restricted to the
fields the admission logic consults: id, owning user, vehicle reference and
the half-open time interval `[startTime, endTime)`. -/
structure Booking where
  id : String
  userId : String
  vehicleId : String
  startTime : Int
  endTime : Int
deriving DecidableEq

/-- A candidate reservation submitted to `POST /api/bookings` or
`PUT /api/bookings/:id`: vehicle reference plus parsed start and end. -/
structure Candidate where
  vehicleId : String
  startTime : Int
  endTime : Int
deriving DecidableEq

/-- Rejection kinds of the admission decisions, one per distinct `AppError`
thrown by the booking routes. -/
inductive RejectionKind where
  | InvalidInterval
  | PastBooking
  | VehicleNotFound
  | Conflict
  | Forbidden
deriving DecidableEq

/-- Outcome of an admission evaluation: either the candidate is admitted or
it is rejected with a single specific kind. -/
inductive Decision where
  | Admitted
  | Rejected (kind : RejectionKind)
deriving DecidableEq

/-- The three `OR`-branches of the Prisma `where` clause inside
`checkBookingConflict` (bookings.ts lines 31-47), applied to the candidate
interval `[s1, e1)` and an existing booking interval `[s2, e2)`:
`startTime <= s1 && endTime > s1`, or `startTime < e1 && endTime >= e1`,
or `startTime >= s1 && endTime <= e1`. -/
def conflictBranches (s1 e1 s2 e2 : Int) : Bool :=
  (decide (s2 ≤ s1) && decide (e2 > s1)) ||
  (decide (s2 < e1) && decide (e2 ≥ e1)) ||
  (decide (s2 ≥ s1) && decide (e2 ≤ e1))

/-- Whether one persisted booking matches the `findFirst` filter of
`checkBookingConflict`: same vehicle, not the excluded booking id (when an
exclusion is given), and at least one of the three interval branches. -/
def matchesConflictQuery (vehicleId : String) (s1 e1 : Int)
    (excludeBookingId : Option String) (b : Booking) : Bool :=
  b.vehicleId == vehicleId &&
  (match excludeBookingId with
   | some ex => b.id != ex
   | none => true) &&
  conflictBranches s1 e1 b.startTime b.endTime

/-- `checkBookingConflict` (bookings.ts lines 21-52): true iff some persisted
booking matches the conflict query for the candidate slot. -/
def checkBookingConflict (bookings : List Booking) (vehicleId : String)
    (startTime endTime : Int) (excludeBookingId : Option String) : Bool :=
  bookings.any (matchesConflictQuery vehicleId startTime endTime excludeBookingId)

/-- The single conflict branch of the admin override update
(admin.ts lines 217-222), applied to candidate `[s1, e1)` and existing
`[s2, e2)`: `startTime < endTime(new) && endTime > startTime(new)`. -/
def adminPairConflict (s1 e1 s2 e2 : Int) : Bool :=
  decide (s2 < e1) && decide (e2 > s1)

/-- The full `findFirst` filter of the admin override update: a different
booking id, same vehicle, and the single overlap branch. -/
def adminMatchesConflictQuery (targetBookingId vehicleId : String)
    (s1 e1 : Int) (b : Booking) : Bool :=
  b.id != targetBookingId && b.vehicleId == vehicleId &&
  adminPairConflict s1 e1 b.startTime b.endTime

/-- Modelled from the spec: the single interval-intersection inequality
`s1 < e2 && s2 < e1` that the spec adopts as the intended conflict
semantics (used only to compare against the source's three branches). -/
def specOverlap (s1 e1 s2 e2 : Int) : Bool :=
  decide (s1 < e2) && decide (s2 < e1)

/-- `prisma.vehicle.findUnique({ where: { id } })` over an explicit store. -/
def findVehicle (vehicles : List Vehicle) (id : String) : Option Vehicle :=
  vehicles.find? (fun v => v.id == id)

/-- The validation pipeline of `POST /api/bookings` (bookings.ts lines
218-250): interval check, past check, vehicle-existence check, overlap
check, first failure wins, otherwise the booking is admitted. -/
def evaluateCreate (c : Candidate) (vehicles : List Vehicle)
    (bookings : List Booking) (now : Int) : Decision :=
  if c.endTime ≤ c.startTime then .Rejected .InvalidInterval
  else if c.startTime < now then .Rejected .PastBooking
  else if (findVehicle vehicles c.vehicleId).isNone then .Rejected .VehicleNotFound
  else if checkBookingConflict bookings c.vehicleId c.startTime c.endTime none then
    .Rejected .Conflict
  else .Admitted

/-- The validation pipeline of `PUT /api/bookings/:id` (bookings.ts lines
307-350), after the target booking `existing` has been found: ownership
check first, then the same four validations as create, with the overlap
check excluding the target booking's id. -/
def evaluateUpdate (c : Candidate) (existing : Booking)
    (requestingUserId : String) (vehicles : List Vehicle)
    (bookings : List Booking) (now : Int) : Decision :=
  if existing.userId ≠ requestingUserId then .Rejected .Forbidden
  else if c.endTime ≤ c.startTime then .Rejected .InvalidInterval
  else if c.startTime < now then .Rejected .PastBooking
  else if (findVehicle vehicles c.vehicleId).isNone then .Rejected .VehicleNotFound
  else if checkBookingConflict bookings c.vehicleId c.startTime c.endTime
      (some existing.id) then .Rejected .Conflict
  else .Admitted

/-- The body of a `PUT /api/admin/bookings/:id` request; each field is
optional (the route only patches the fields that are present). -/
structure AdminUpdateRequest where
  vehicleId : Option String
  startTime : Option Int
  endTime : Option Int
deriving DecidableEq

/-- The admin override update (admin.ts lines 206-251): when vehicleId,
startTime and endTime are all supplied it runs the single-branch conflict
query (excluding the target booking) and rejects on conflict; in every
other case the update is committed with no validation at all. -/
def adminEvaluateUpdate (req : AdminUpdateRequest) (targetBookingId : String)
    (bookings : List Booking) : Decision :=
  match req.vehicleId, req.startTime, req.endTime with
  | some vid, some st, some et =>
    if bookings.any (adminMatchesConflictQuery targetBookingId vid st et) then
      .Rejected .Conflict
    else .Admitted
  | _, _, _ => .Admitted

/-- `DELETE /api/admin/vehicles/:id` (admin.ts lines 150-171): count the
bookings referencing the vehicle; if the count is positive reject and leave
the store unchanged, otherwise remove the vehicle. -/
def adminDeleteVehicle (vehicles : List Vehicle) (bookings : List Booking)
    (id : String) : Except String (List Vehicle × List Booking) :=
  let bookingCount := (bookings.filter (fun b => b.vehicleId == id)).length
  if bookingCount > 0 then
    .error "Cannot delete vehicle with existing bookings"
  else
    .ok (vehicles.filter (fun v => v.id != id), bookings)

/-- On valid intervals the three branches collapse to the plain interval
intersection test. -/
theorem conflictBranches_eq_overlap (s1 e1 s2 e2 : Int)
    (h1 : s1 < e1) (h2 : s2 < e2) :
    conflictBranches s1 e1 s2 e2 = true ↔ (s1 < e2 ∧ s2 < e1) := by
  simp only [conflictBranches, Bool.or_eq_true, Bool.and_eq_true,
    decide_eq_true_eq]
  omega

/-- Claim C1: on valid intervals the three-branch disjunction implemented by
`checkBookingConflict` holds iff the spec's single intersection inequality
`s1 < e2 && s2 < e1` holds, and hence it decides conflict identically to
the admin route's single-branch predicate. -/
theorem branches_iff_overlap (s1 e1 s2 e2 : Int)
    (h1 : s1 < e1) (h2 : s2 < e2) :
    (conflictBranches s1 e1 s2 e2 = true ↔ specOverlap s1 e1 s2 e2 = true) ∧
    conflictBranches s1 e1 s2 e2 = adminPairConflict s1 e1 s2 e2 := by
  constructor
  · rw [conflictBranches_eq_overlap s1 e1 s2 e2 h1 h2]
    simp only [specOverlap, Bool.and_eq_true, decide_eq_true_eq]
  · rw [Bool.eq_iff_iff]
    simp only [conflictBranches, adminPairConflict, Bool.or_eq_true,
      Bool.and_eq_true, decide_eq_true_eq]
    omega

/-- Witness for C1 at a concrete overlapping pair of valid intervals. -/
theorem branches_iff_overlap_witness :
    ((0 : Int) < 2 ∧ (1 : Int) < 3) ∧
    ((conflictBranches 0 2 1 3 = true ↔ specOverlap 0 2 1 3 = true) ∧
     conflictBranches 0 2 1 3 = adminPairConflict 0 2 1 3) :=
  ⟨⟨by decide, by decide⟩, branches_iff_overlap 0 2 1 3 (by decide) (by decide)⟩

/-- A back-to-back pair of valid intervals matches none of the three
branches. -/
theorem conflictBranches_back_to_back (s1 e1 s2 e2 : Int)
    (h1 : s1 < e1) (h2 : s2 < e2) (h : e1 = s2 ∨ s1 = e2) :
    conflictBranches s1 e1 s2 e2 = false := by
  rw [Bool.eq_false_iff]
  intro hbr
  have hov := (conflictBranches_eq_overlap s1 e1 s2 e2 h1 h2).mp hbr
  omega

/-- Claim C2: a valid candidate that is back-to-back with every existing
booking of its vehicle (ending exactly when the booking starts or starting
exactly when it ends) is never flagged by `checkBookingConflict`, hence
never rejected as a conflict on account of those bookings. -/
theorem back_to_back_never_conflicts (c : Candidate) (bookings : List Booking)
    (excludeBookingId : Option String)
    (hc : c.startTime < c.endTime)
    (hb : ∀ b ∈ bookings, b.vehicleId = c.vehicleId →
      b.startTime < b.endTime ∧
      (c.endTime = b.startTime ∨ c.startTime = b.endTime)) :
    checkBookingConflict bookings c.vehicleId c.startTime c.endTime
      excludeBookingId = false := by
  rw [checkBookingConflict, Bool.eq_false_iff]
  intro hany
  rw [List.any_eq_true] at hany
  obtain ⟨b, hbmem, hmatch⟩ := hany
  simp only [matchesConflictQuery, Bool.and_eq_true, beq_iff_eq] at hmatch
  obtain ⟨⟨hveq, -⟩, hbr⟩ := hmatch
  obtain ⟨hbvalid, hbtb⟩ := hb b hbmem hveq
  have := conflictBranches_back_to_back c.startTime c.endTime
    b.startTime b.endTime hc hbvalid hbtb
  rw [this] at hbr
  cases hbr

/-- Witness for C2: a candidate ending exactly when the existing booking
starts is admitted by the conflict check. -/
theorem back_to_back_never_conflicts_witness :
    checkBookingConflict [⟨"b1", "u2", "v1", 5, 8⟩] "v1" 0 5 none = false :=
  back_to_back_never_conflicts ⟨"v1", 0, 5⟩ [⟨"b1", "u2", "v1", 5, 8⟩] none
    (by decide) (by decide)

/-- Claim C8: the conflict decision of `checkBookingConflict` is symmetric
on valid intervals: with booking `a` as candidate against existing `b` it
answers the same as with `b` as candidate against existing `a`. -/
theorem conflict_symm (a b : Booking) (hv : a.vehicleId = b.vehicleId)
    (ha : a.startTime < a.endTime) (hb : b.startTime < b.endTime) :
    checkBookingConflict [b] a.vehicleId a.startTime a.endTime none =
    checkBookingConflict [a] b.vehicleId b.startTime b.endTime none := by
  simp only [checkBookingConflict, List.any_cons, List.any_nil,
    Bool.or_false, matchesConflictQuery, hv, beq_self_eq_true, Bool.true_and]
  rw [Bool.eq_iff_iff]
  simp only [conflictBranches, Bool.or_eq_true, Bool.and_eq_true,
    decide_eq_true_eq]
  omega

/-- Witness for C8 at a concrete pair of overlapping bookings. -/
theorem conflict_symm_witness :
    checkBookingConflict [⟨"b2", "u2", "v1", 1, 3⟩] "v1" 0 2 none =
    checkBookingConflict [⟨"b1", "u1", "v1", 0, 2⟩] "v1" 1 3 none :=
  conflict_symm ⟨"b1", "u1", "v1", 0, 2⟩ ⟨"b2", "u2", "v1", 1, 3⟩
    (by decide) (by decide) (by decide)

/-- Claim C3: an update request by a user who is not the booking's owner is
rejected with `Forbidden` unconditionally, hence before any temporal
validation (the decision does not look at the candidate interval at all). -/
theorem update_forbidden_first (c : Candidate) (existing : Booking)
    (requestingUserId : String) (vehicles : List Vehicle)
    (bookings : List Booking) (now : Int)
    (h : existing.userId ≠ requestingUserId) :
    evaluateUpdate c existing requestingUserId vehicles bookings now =
      .Rejected .Forbidden := by
  rw [evaluateUpdate, if_pos h]

/-- Witness for C3: a non-owner submitting a candidate with `end < start`
still gets `Forbidden`, not `InvalidInterval`. -/
theorem update_forbidden_first_witness :
    evaluateUpdate ⟨"v1", 10, 5⟩ ⟨"b1", "owner", "v1", 0, 1⟩ "mallory"
      [] [] 0 = .Rejected .Forbidden :=
  update_forbidden_first ⟨"v1", 10, 5⟩ ⟨"b1", "owner", "v1", 0, 1⟩ "mallory"
    [] [] 0 (by decide)

/-- Claim C4: `evaluateCreate` reports only the first failing validation, in
the fixed order interval, past, vehicle existence, overlap. -/
theorem evaluateCreate_first_failure (c : Candidate) (vehicles : List Vehicle)
    (bookings : List Booking) (now : Int) :
    (c.endTime ≤ c.startTime →
      evaluateCreate c vehicles bookings now = .Rejected .InvalidInterval) ∧
    (c.startTime < c.endTime → c.startTime < now →
      evaluateCreate c vehicles bookings now = .Rejected .PastBooking) ∧
    (c.startTime < c.endTime → now ≤ c.startTime →
      findVehicle vehicles c.vehicleId = none →
      evaluateCreate c vehicles bookings now = .Rejected .VehicleNotFound) ∧
    (c.startTime < c.endTime → now ≤ c.startTime →
      findVehicle vehicles c.vehicleId ≠ none →
      evaluateCreate c vehicles bookings now =
        (if checkBookingConflict bookings c.vehicleId c.startTime c.endTime
            none then .Rejected .Conflict else .Admitted)) := by
  refine ⟨?_, ?_, ?_, ?_⟩
  · intro h1
    rw [evaluateCreate, if_pos h1]
  · intro h1 h2
    rw [evaluateCreate, if_neg (by omega), if_pos h2]
  · intro h1 h2 h3
    rw [evaluateCreate, if_neg (by omega), if_neg (by omega),
      if_pos (by simp [h3])]
  · intro h1 h2 h3
    rw [evaluateCreate, if_neg (by omega), if_neg (by omega), if_neg]
    simpa [Option.isNone_iff_eq_none] using h3

/-- Witness for C4: an inverted interval is rejected as `InvalidInterval`
even though the vehicle is also missing and `now` is irrelevant. -/
theorem evaluateCreate_first_failure_witness :
    evaluateCreate ⟨"v1", 10, 5⟩ [] [] 0 = .Rejected .InvalidInterval :=
  (evaluateCreate_first_failure ⟨"v1", 10, 5⟩ [] [] 0).1 (by decide)

/-- Characterization of an admitted update: every one of the five checks of
`PUT /api/bookings/:id` must pass. -/
theorem evaluateUpdate_admitted_iff (c : Candidate) (existing : Booking)
    (requestingUserId : String) (vehicles : List Vehicle)
    (bookings : List Booking) (now : Int) :
    evaluateUpdate c existing requestingUserId vehicles bookings now =
      .Admitted ↔
    (existing.userId = requestingUserId ∧ c.startTime < c.endTime ∧
     now ≤ c.startTime ∧ findVehicle vehicles c.vehicleId ≠ none ∧
     checkBookingConflict bookings c.vehicleId c.startTime c.endTime
       (some existing.id) = false) := by
  rw [evaluateUpdate]
  by_cases h1 : existing.userId ≠ requestingUserId
  · rw [if_pos h1]
    exact ⟨fun h => Decision.noConfusion h, fun h => absurd h.1 h1⟩
  · rw [if_neg h1]
    push_neg at h1
    by_cases h2 : c.endTime ≤ c.startTime
    · rw [if_pos h2]
      exact ⟨fun h => Decision.noConfusion h,
        fun h => absurd h.2.1 (by omega)⟩
    · rw [if_neg h2]
      by_cases h3 : c.startTime < now
      · rw [if_pos h3]
        exact ⟨fun h => Decision.noConfusion h,
          fun h => absurd h.2.2.1 (by omega)⟩
      · rw [if_neg h3]
        by_cases h4 : (findVehicle vehicles c.vehicleId).isNone = true
        · rw [if_pos h4]
          exact ⟨fun h => Decision.noConfusion h,
            fun h => absurd (Option.isNone_iff_eq_none.mp h4) h.2.2.2.1⟩
        · rw [if_neg h4]
          by_cases h5 : checkBookingConflict bookings c.vehicleId c.startTime
              c.endTime (some existing.id) = true
          · rw [if_pos h5]
            exact ⟨fun h => Decision.noConfusion h,
              fun h => by simp [h.2.2.2.2] at h5⟩
          · rw [if_neg h5]
            refine ⟨fun _ => ⟨h1, by omega, by omega, ?_, ?_⟩, fun _ => rfl⟩
            · intro hcon
              exact h4 (by simp [hcon])
            · exact Bool.eq_false_iff.mpr h5

/-- Claim C5: when the persisted bookings are pairwise non-overlapping and
valid, the owner updating booking X to X's own current interval (not in the
past, vehicle present) is admitted — the conflict check excludes X itself. -/
theorem evaluateUpdate_self_admitted (X : Booking) (vehicles : List Vehicle)
    (bookings : List Booking) (now : Int)
    (hX : X.startTime < X.endTime)
    (hvalid : ∀ b ∈ bookings, b.startTime < b.endTime)
    (hinv : ∀ a ∈ bookings, ∀ b ∈ bookings, a.id ≠ b.id →
      a.vehicleId = b.vehicleId →
      ¬(a.startTime < b.endTime ∧ b.startTime < a.endTime))
    (hmem : X ∈ bookings)
    (hnow : now ≤ X.startTime)
    (hveh : findVehicle vehicles X.vehicleId ≠ none) :
    evaluateUpdate ⟨X.vehicleId, X.startTime, X.endTime⟩ X X.userId
      vehicles bookings now = .Admitted := by
  rw [evaluateUpdate_admitted_iff]
  refine ⟨rfl, hX, hnow, hveh, ?_⟩
  rw [checkBookingConflict, Bool.eq_false_iff]
  intro hany
  rw [List.any_eq_true] at hany
  obtain ⟨b, hbmem, hmatch⟩ := hany
  simp only [matchesConflictQuery, Bool.and_eq_true, beq_iff_eq,
    bne_iff_ne, ne_eq] at hmatch
  obtain ⟨⟨hveq, hbne⟩, hbr⟩ := hmatch
  have hov := (conflictBranches_eq_overlap X.startTime X.endTime
    b.startTime b.endTime hX (hvalid b hbmem)).mp hbr
  exact hinv X hmem b hbmem (fun h => hbne h.symm) hveq.symm hov

/-- Witness for C5: the owner moves booking b1 onto its own current slot in
a store that also holds a back-to-back booking b2; the update is admitted. -/
theorem evaluateUpdate_self_admitted_witness :
    evaluateUpdate ⟨"v1", 5, 10⟩ ⟨"b1", "u1", "v1", 5, 10⟩ "u1"
      [⟨"v1", "Van 1", "VAN", "P1", "blue", true⟩]
      [⟨"b1", "u1", "v1", 5, 10⟩, ⟨"b2", "u2", "v1", 10, 20⟩] 5 =
      .Admitted :=
  evaluateUpdate_self_admitted ⟨"b1", "u1", "v1", 5, 10⟩
    [⟨"v1", "Van 1", "VAN", "P1", "blue", true⟩]
    [⟨"b1", "u1", "v1", 5, 10⟩, ⟨"b2", "u2", "v1", 10, 20⟩] 5
    (by decide) (by decide) (by decide) (by decide) (by decide) (by decide)

/-- Characterization of a `PastBooking` rejection on create. -/
theorem evaluateCreate_past_iff (c : Candidate) (vehicles : List Vehicle)
    (bookings : List Booking) (now : Int) :
    evaluateCreate c vehicles bookings now = .Rejected .PastBooking ↔
    (c.startTime < c.endTime ∧ c.startTime < now) := by
  rw [evaluateCreate]
  by_cases h1 : c.endTime ≤ c.startTime
  · rw [if_pos h1]
    exact ⟨fun h => by simp at h, fun h => absurd h.1 (by omega)⟩
  · rw [if_neg h1]
    by_cases h2 : c.startTime < now
    · rw [if_pos h2]
      exact ⟨fun _ => ⟨by omega, h2⟩, fun _ => rfl⟩
    · rw [if_neg h2]
      refine ⟨fun h => ?_, fun h => absurd h.2 h2⟩
      rcases Bool.eq_false_or_eq_true
          (findVehicle vehicles c.vehicleId).isNone with h4 | h4
      · rw [if_pos h4] at h
        simp at h
      · rw [if_neg (by simp [h4])] at h
        rcases Bool.eq_false_or_eq_true (checkBookingConflict bookings
            c.vehicleId c.startTime c.endTime none) with h5 | h5
        · rw [if_pos h5] at h
          simp at h
        · rw [if_neg (by simp [h5])] at h
          exact Decision.noConfusion h

/-- Characterization of a `PastBooking` rejection on the owner update. -/
theorem evaluateUpdate_past_iff (c : Candidate) (existing : Booking)
    (requestingUserId : String) (vehicles : List Vehicle)
    (bookings : List Booking) (now : Int) :
    evaluateUpdate c existing requestingUserId vehicles bookings now =
      .Rejected .PastBooking ↔
    (existing.userId = requestingUserId ∧ c.startTime < c.endTime ∧
     c.startTime < now) := by
  rw [evaluateUpdate]
  by_cases h0 : existing.userId ≠ requestingUserId
  · rw [if_pos h0]
    exact ⟨fun h => by simp at h, fun h => absurd h.1 h0⟩
  · rw [if_neg h0]
    push_neg at h0
    by_cases h1 : c.endTime ≤ c.startTime
    · rw [if_pos h1]
      exact ⟨fun h => by simp at h, fun h => absurd h.2.1 (by omega)⟩
    · rw [if_neg h1]
      by_cases h2 : c.startTime < now
      · rw [if_pos h2]
        exact ⟨fun _ => ⟨h0, by omega, h2⟩, fun _ => rfl⟩
      · rw [if_neg h2]
        refine ⟨fun h => ?_, fun h => absurd h.2.2 h2⟩
        rcases Bool.eq_false_or_eq_true
            (findVehicle vehicles c.vehicleId).isNone with h4 | h4
        · rw [if_pos h4] at h
          simp at h
        · rw [if_neg (by simp [h4])] at h
          rcases Bool.eq_false_or_eq_true (checkBookingConflict bookings
              c.vehicleId c.startTime c.endTime (some existing.id)) with
            h5 | h5
          · rw [if_pos h5] at h
            simp at h
          · rw [if_neg (by simp [h5])] at h
            exact Decision.noConfusion h

/-- Claim C6: the past check is strict at the boundary: a candidate with
`start = now` is never rejected as `PastBooking` (create or update), while
`start < now` with a valid interval (and, on update, an authorized owner)
is always rejected as `PastBooking`. -/
theorem past_boundary (c : Candidate) (existing : Booking)
    (requestingUserId : String) (vehicles : List Vehicle)
    (bookings : List Booking) (now : Int) :
    (c.startTime = now →
      evaluateCreate c vehicles bookings now ≠ .Rejected .PastBooking) ∧
    (c.startTime < now → c.startTime < c.endTime →
      evaluateCreate c vehicles bookings now = .Rejected .PastBooking) ∧
    (c.startTime = now →
      evaluateUpdate c existing requestingUserId vehicles bookings now ≠
        .Rejected .PastBooking) ∧
    (existing.userId = requestingUserId → c.startTime < now →
      c.startTime < c.endTime →
      evaluateUpdate c existing requestingUserId vehicles bookings now =
        .Rejected .PastBooking) := by
  refine ⟨?_, ?_, ?_, ?_⟩
  · intro h hcon
    have := (evaluateCreate_past_iff c vehicles bookings now).mp hcon
    omega
  · intro h1 h2
    exact (evaluateCreate_past_iff c vehicles bookings now).mpr ⟨h2, h1⟩
  · intro h hcon
    have := (evaluateUpdate_past_iff c existing requestingUserId vehicles
      bookings now).mp hcon
    omega
  · intro h0 h1 h2
    exact (evaluateUpdate_past_iff c existing requestingUserId vehicles
      bookings now).mpr ⟨h0, h2, h1⟩

/-- Witness for C6: `start = now` passes the past check while
`start = now - 1` is rejected as `PastBooking`. -/
theorem past_boundary_witness :
    evaluateCreate ⟨"v1", 0, 5⟩ [] [] 0 ≠ .Rejected .PastBooking ∧
    evaluateCreate ⟨"v1", -1, 5⟩ [] [] 0 = .Rejected .PastBooking :=
  ⟨(past_boundary ⟨"v1", 0, 5⟩ ⟨"b1", "u1", "v1", 0, 1⟩ "u1" [] [] 0).1 rfl,
   (past_boundary ⟨"v1", -1, 5⟩ ⟨"b1", "u1", "v1", 0, 1⟩ "u1" [] [] 0).2.1
     (by decide) (by decide)⟩

/-- Claim C7 counterexample: the admin override update commits a candidate
with `endTime < startTime` (start 10, end 5) without rejection — it does
not re-validate interval orientation (nor past placement nor vehicle
existence, for which it takes no inputs at all). -/
theorem admin_update_skips_validation :
    adminEvaluateUpdate ⟨some "v1", some 10, some 5⟩ "b1" [] = .Admitted := by
  decide

/-- Claim C7 (amended): the owner-path update re-validates all four booking
invariants before committing, while the admin override re-validates only
the no-overlap invariant — and only when vehicleId, startTime and endTime
are all supplied; otherwise it commits with no validation at all. -/
theorem mutation_revalidation (c : Candidate) (existing : Booking)
    (requestingUserId : String) (vehicles : List Vehicle)
    (bookings : List Booking) (now : Int) (req : AdminUpdateRequest)
    (targetBookingId : String) :
    (evaluateUpdate c existing requestingUserId vehicles bookings now =
        .Admitted →
      c.startTime < c.endTime ∧ now ≤ c.startTime ∧
      findVehicle vehicles c.vehicleId ≠ none ∧
      checkBookingConflict bookings c.vehicleId c.startTime c.endTime
        (some existing.id) = false) ∧
    (∀ vid st et,
      adminEvaluateUpdate ⟨some vid, some st, some et⟩ targetBookingId
          bookings =
        (if bookings.any (adminMatchesConflictQuery targetBookingId vid st
            et) then .Rejected .Conflict else .Admitted)) ∧
    ((req.vehicleId = none ∨ req.startTime = none ∨ req.endTime = none) →
      adminEvaluateUpdate req targetBookingId bookings = .Admitted) := by
  refine ⟨?_, ?_, ?_⟩
  · intro h
    have hall := (evaluateUpdate_admitted_iff c existing requestingUserId
      vehicles bookings now).mp h
    exact ⟨hall.2.1, hall.2.2.1, hall.2.2.2.1, hall.2.2.2.2⟩
  · intro vid st et
    rfl
  · intro h
    obtain ⟨vid, st, et⟩ := req
    cases vid <;> cases st <;> cases et <;> simp_all [adminEvaluateUpdate]

/-- Witness for C7 (amended): a concrete admitted owner update necessarily
passed all four invariant checks. -/
theorem mutation_revalidation_witness :
    (0 : Int) < 10 ∧ (0 : Int) ≤ 0 ∧
    findVehicle [⟨"v1", "Van 1", "VAN", "P1", "blue", true⟩] "v1" ≠ none ∧
    checkBookingConflict [] "v1" 0 10 (some "b1") = false :=
  (mutation_revalidation ⟨"v1", 0, 10⟩ ⟨"b1", "u1", "v1", 0, 10⟩ "u1"
    [⟨"v1", "Van 1", "VAN", "P1", "blue", true⟩] [] 0 ⟨none, none, none⟩
    "b1").1 (by decide)

/-- Claim C9: deleting a vehicle fails, leaving the store unchanged, exactly
when that vehicle has at least one booking; with zero bookings it succeeds,
removing the vehicle and leaving the bookings untouched. -/
theorem adminDeleteVehicle_spec (vehicles : List Vehicle)
    (bookings : List Booking) (id : String) :
    ((∃ b ∈ bookings, b.vehicleId = id) →
      adminDeleteVehicle vehicles bookings id =
        .error "Cannot delete vehicle with existing bookings") ∧
    ((∀ b ∈ bookings, b.vehicleId ≠ id) →
      adminDeleteVehicle vehicles bookings id =
        .ok (vehicles.filter (fun v => v.id != id), bookings)) := by
  constructor
  · rintro ⟨b, hbmem, hveq⟩
    have hmemf : b ∈ bookings.filter (fun x => x.vehicleId == id) :=
      List.mem_filter.mpr ⟨hbmem, by simp [hveq]⟩
    have hpos : 0 < (bookings.filter (fun x => x.vehicleId == id)).length :=
      List.length_pos.mpr (List.ne_nil_of_mem hmemf)
    simp only [adminDeleteVehicle]
    rw [if_pos hpos]
  · intro hall
    have hnil : bookings.filter (fun x => x.vehicleId == id) = [] := by
      rw [List.filter_eq_nil_iff]
      intro b hbmem
      simp [hall b hbmem]
    simp only [adminDeleteVehicle]
    rw [hnil]
    rfl

/-- Witness for C9: deletion is refused for a vehicle with one booking and
succeeds for the same vehicle once its booking list is empty. -/
theorem adminDeleteVehicle_spec_witness :
    adminDeleteVehicle [⟨"v1", "Van 1", "VAN", "P1", "blue", true⟩]
      [⟨"b1", "u1", "v1", 0, 5⟩] "v1" =
      .error "Cannot delete vehicle with existing bookings" ∧
    adminDeleteVehicle [⟨"v1", "Van 1", "VAN", "P1", "blue", true⟩] [] "v1" =
      .ok ([], []) :=
  ⟨(adminDeleteVehicle_spec [⟨"v1", "Van 1", "VAN", "P1", "blue", true⟩]
      [⟨"b1", "u1", "v1", 0, 5⟩] "v1").1 ⟨⟨"b1", "u1", "v1", 0, 5⟩,
      by decide, rfl⟩,
   (adminDeleteVehicle_spec [⟨"v1", "Van 1", "VAN", "P1", "blue", true⟩]
      [] "v1").2 (by decide)⟩

/-- The vehicle lookup used by the admission pipeline keeps its emptiness
when the isActive flag of every stored vehicle is rewritten. -/
theorem findVehicle_map_isActive (vehicles : List Vehicle) (id : String)
    (g : Vehicle → Bool) :
    (findVehicle (vehicles.map fun v => { v with isActive := g v })
      id).isNone = (findVehicle vehicles id).isNone := by
  have hiff : ((vehicles.map fun v => { v with isActive := g v }).find?
      (fun v => v.id == id)).isSome ↔
      (vehicles.find? (fun v => v.id == id)).isSome := by
    simp only [List.find?_isSome, List.mem_map]
    constructor
    · rintro ⟨x, ⟨v, hv, rfl⟩, hp⟩
      exact ⟨v, hv, hp⟩
    · rintro ⟨v, hv, hp⟩
      exact ⟨{ v with isActive := g v }, ⟨v, hv, rfl⟩, hp⟩
  rw [findVehicle, findVehicle, Bool.eq_iff_iff]
  simp only [Option.isNone_iff_eq_none, ← Option.not_isSome_iff_eq_none]
  exact not_congr hiff

/-- Claim C10: booking admission never consults the isActive flag:
arbitrarily rewriting the flag of every stored vehicle changes neither the
create decision nor the update decision, so a deactivated vehicle passes
the vehicle-existence check exactly like an active one. -/
theorem admission_ignores_isActive (c : Candidate) (existing : Booking)
    (requestingUserId : String) (vehicles : List Vehicle)
    (bookings : List Booking) (now : Int) (g : Vehicle → Bool) :
    evaluateCreate c (vehicles.map fun v => { v with isActive := g v })
        bookings now = evaluateCreate c vehicles bookings now ∧
    evaluateUpdate c existing requestingUserId
        (vehicles.map fun v => { v with isActive := g v }) bookings now =
      evaluateUpdate c existing requestingUserId vehicles bookings now := by
  constructor
  · rw [evaluateCreate, evaluateCreate, findVehicle_map_isActive]
  · rw [evaluateUpdate, evaluateUpdate, findVehicle_map_isActive]

end VehicleBooking
